import Mathlib

/-!
Shallow embedding of the lon-mirror OMNIA measurement core
(superposition kernel, lenses, omega estimator, ZEA classifier,
constrained generator, certificate builder and certificate differ),
with theorems settling the behavioural claims about it.

Python floats are modelled by rationals; NaN-specific behaviour is noted
where it matters.  Python dicts whose keys are fixed at construction are
modelled by association lists or structures with one field per key.
-/

namespace Omnia

/-- A named view of an object produced by a lens
(`omnia/engine/superposition.py`, class `Representation`).
The payload is text in every lens of the repository (the gzip/sha views
are modelled as their deterministic textual encodings); `meta` maps
keys to stringified values. -/
structure Representation where
  name : String
  payload : String
  meta : List (String × String)
deriving Repr, DecidableEq

/-- Report of one superposition run
(`omnia/engine/superposition.py`, class `SuperpositionReport`).
The Python `pairwise` dict is modelled as the association list of
`(key, distance)` entries in insertion order; `meta` holds `n_views`. -/
structure SuperpositionReport where
  pairwise : List (String × ℚ)
  invariance : ℚ
  fractures : List String
  meta_n_views : Nat
deriving Repr, DecidableEq

/-- The kernel holds the injected distance metric
(`omnia/engine/superposition.py`, class `SuperpositionKernel`). -/
structure SuperpositionKernel where
  metric : Representation → Representation → ℚ

/-- All ordered pairs `(l[i], l[j])` with `i < j`, in the order of the
double loop `for i in range(n): for j in range(i+1, n)` of
`SuperpositionKernel.run`. -/
def listPairs {α : Type} : List α → List (α × α)
  | [] => []
  | x :: xs => xs.map (fun y => (x, y)) ++ listPairs xs

/-- `SuperpositionKernel.run` (`omnia/engine/superposition.py`, lines 27-50):
walk every unordered pair, record the raw metric value under the
`name__name` key, collect a fracture when the distance exceeds `0.5`,
and report `invariance = max(0, min(1, 1 - mean))`, the mean being `0`
when there are no pairs. -/
def SuperpositionKernel.run (k : SuperpositionKernel) (reps : List Representation) :
    SuperpositionReport :=
  let ps := listPairs reps
  let pairwise := ps.map (fun p => (p.1.name ++ "__" ++ p.2.name, k.metric p.1 p.2))
  let scores := ps.map (fun p => k.metric p.1 p.2)
  let fractures :=
    (ps.filter (fun p => (1 : ℚ)/2 < k.metric p.1 p.2)).map
      (fun p => p.1.name ++ "__" ++ p.2.name)
  let mean_d : ℚ := if scores.isEmpty then 0 else scores.sum / scores.length
  let inv : ℚ := max 0 (min 1 (1 - mean_d))
  { pairwise := pairwise
    invariance := inv
    fractures := fractures
    meta_n_views := reps.length }

theorem listPairs_length {α : Type} (l : List α) :
    (listPairs l).length = l.length.choose 2 := by
  induction l with
  | nil => simp [listPairs]
  | cons x xs ih =>
      simp [listPairs, ih, Nat.choose]

theorem listPairs_of_short {α : Type} (l : List α) (h : l.length ≤ 1) :
    listPairs l = [] := by
  match l with
  | [] => rfl
  | [x] => rfl
  | x :: y :: t => simp at h

/-- C1: `SuperpositionKernel.run` computes all `C(N,2)` pairwise distances via
the injected metric and reports `invariance = clamp(1 - mean, 0, 1)` with the
mean taken as `0` when there are no pairs; for every list with at most one
representation it returns invariance `1` and an empty fracture list. -/
theorem superposition_run_spec (k : SuperpositionKernel) (reps : List Representation) :
    (k.run reps).pairwise.length = reps.length.choose 2 ∧
    (k.run reps).pairwise =
      (listPairs reps).map (fun p => (p.1.name ++ "__" ++ p.2.name, k.metric p.1 p.2)) ∧
    (k.run reps).invariance =
      max 0 (min 1 (1 -
        (if (listPairs reps).isEmpty then 0 else
          ((listPairs reps).map (fun p => k.metric p.1 p.2)).sum /
            (((listPairs reps).length : ℚ))))) ∧
    (reps.length ≤ 1 → (k.run reps).invariance = 1 ∧ (k.run reps).fractures = []) := by
  refine ⟨?_, rfl, ?_, ?_⟩
  · simp only [SuperpositionKernel.run, List.length_map]
    exact listPairs_length reps
  · simp [SuperpositionKernel.run]
  · intro h
    constructor
    · simp [SuperpositionKernel.run, listPairs_of_short reps h]
    · simp [SuperpositionKernel.run, listPairs_of_short reps h]

theorem superposition_run_spec_witness :
    ((SuperpositionKernel.mk (fun _ _ => 0)).run
        [{ name := "a", payload := "x", meta := [] }]).invariance = 1 ∧
    ((SuperpositionKernel.mk (fun _ _ => 0)).run
        [{ name := "a", payload := "x", meta := [] }]).fractures = [] :=
  (superposition_run_spec (SuperpositionKernel.mk (fun _ _ => 0))
      [{ name := "a", payload := "x", meta := [] }]).2.2.2 (by decide)

/-- C9 counterexample: a metric that returns `2` on the two-representation
list `[a, b]` is recorded raw in the pairwise map — the value `2` lies
outside `[0,1]`, so out-of-range metric results are not clamped there. -/
theorem pairwise_unclamped_counterexample :
    ¬ (∀ p ∈ ((SuperpositionKernel.mk (fun _ _ => (2 : ℚ))).run
        [{ name := "a", payload := "", meta := [] },
         { name := "b", payload := "", meta := [] }]).pairwise,
        0 ≤ p.2 ∧ p.2 ≤ 1) := by
  intro h
  have hm := h ("a__b", (2 : ℚ)) (by simp [SuperpositionKernel.run, listPairs])
  norm_num at hm

/-- C9 amended: the reported invariance always lies in `[0,1]` whatever the
injected metric returns, while the distances recorded in the pairwise map are
the raw metric values, not clamped. -/
theorem invariance_clamped_pairwise_raw (k : SuperpositionKernel)
    (reps : List Representation) :
    0 ≤ (k.run reps).invariance ∧ (k.run reps).invariance ≤ 1 ∧
    (k.run reps).pairwise =
      (listPairs reps).map (fun p => (p.1.name ++ "__" ++ p.2.name, k.metric p.1 p.2)) := by
  refine ⟨le_max_left 0 _, ?_, rfl⟩
  exact max_le (by norm_num) (min_le_left 1 _)

/-- `omnia/lenses/permutation.py`, class `PermutationLens` (frozen dataclass
with an `id` and a `seed`). -/
structure PermutationLens where
  id : String := "permutation"
  seed : Nat := 0

/-- One step of the linear-congruential recurrence used by the permutation
shuffle: `x = (1103515245*x + 12345) & 0x7FFFFFFF`. -/
def lcgStep (x : Nat) : Nat := (1103515245 * x + 12345) % 2 ^ 31

/-- Split a character list at every occurrence of the separator, like
Python's `str.split(sep)` for a one-character separator (empty groups kept). -/
def splitOnChar (sep : Char) : List Char → List (List Char)
  | [] => [[]]
  | c :: rest =>
      let r := splitOnChar sep rest
      if c = sep then [] :: r
      else
        match r with
        | [] => [[c]]
        | g :: gs => (c :: g) :: gs

/-- Python's `str.strip()`: drop leading and trailing whitespace. -/
def trimChars (cs : List Char) : List Char :=
  ((cs.dropWhile (fun c => c.isWhitespace)).reverse.dropWhile
      (fun c => c.isWhitespace)).reverse

/-- Python's `str.strip()` on a string. -/
def pyStrip (s : String) : String := String.mk (trimChars s.data)

/-- Python's `text.split(".")`. -/
def pySplitDot (s : String) : List String := (splitOnChar '.' s.data).map String.mk

/-- Sentence segmentation of `PermutationLens.views`:
`[p.strip() for p in text.split(".") if p.strip()]`. -/
def permSegments (text : String) : List String :=
  ((pySplitDot text).map pyStrip).filter (fun s => s ≠ "")

/-- `idx[i], idx[j] = idx[j], idx[i]` on a list of indices
(indices used by the shuffle are always in bounds). -/
def swapIdx (l : List Nat) (i j : Nat) : List Nat :=
  let vi := l.getD i 0
  let vj := l.getD j 0
  (l.set i vj).set j vi

/-- The Fisher-Yates-style loop of `PermutationLens.views`:
`for k in range(len(idx)-1, 0, -1): x = lcg(x); r = x % (k+1); swap k r`.
The first argument is the current value of `k`. -/
def shuffleAux : Nat → Nat → List Nat → List Nat
  | 0, _, idx => idx
  | k + 1, x, idx =>
      shuffleAux k (lcgStep x) (swapIdx idx (k + 1) (lcgStep x % (k + 2)))

/-- `PermutationLens.views` (`omnia/lenses/permutation.py`, lines 20-46):
identity view always; when the text splits into at least two sentence
segments, one extra deterministically permuted view. -/
def PermutationLens.views (lens : PermutationLens) (obj : String) : List Representation :=
  let text := obj
  let parts := permSegments text
  let reps : List Representation := [{ name := "orig", payload := text, meta := [] }]
  if parts.length < 2 then reps
  else
    let idx := shuffleAux (parts.length - 1) ((lens.seed + 1) % 2 ^ 31)
      (List.range parts.length)
    let permuted := String.intercalate ". " (idx.map (fun i => parts.getD i "")) ++ "."
    reps ++
      [{ name := "perm_seed_" ++ toString lens.seed,
         payload := permuted,
         meta := [("seed", toString lens.seed),
                  ("n_parts", toString parts.length)] }]

/-- The permuted payload as the spec words it: a Fisher-Yates-style swap from
the last segment to the first, driven by `x = (1103515245*x + 12345) mod 2^31`
with initial state `seed + 1` (no mask on the initial state). -/
def permutedSpec (seed : Nat) (text : String) : String :=
  let parts := permSegments text
  let idx := shuffleAux (parts.length - 1) (seed + 1) (List.range parts.length)
  String.intercalate ". " (idx.map (fun i => parts.getD i "")) ++ "."

theorem lcgStep_mod (x : Nat) : lcgStep (x % 2 ^ 31) = lcgStep x := by
  simp [lcgStep, Nat.add_mod, Nat.mul_mod]

theorem shuffleAux_mod (x : Nat) (idx : List Nat) (k : Nat) :
    shuffleAux k (x % 2 ^ 31) idx = shuffleAux k x idx := by
  cases k with
  | zero => rfl
  | succ k => rw [shuffleAux, shuffleAux, lcgStep_mod]

/-- C5: `PermutationLens.views` is deterministic (it depends only on the seed
and the text); with at least two sentence segments it returns the identity
view plus exactly one permuted view produced by the Fisher-Yates-style swap
driven by `x = (1103515245*x + 12345) mod 2^31` with initial state `seed+1`;
with fewer than two segments it returns only the identity view. -/
theorem permutation_views_spec (lens : PermutationLens) (text : String) :
    (∀ lens₂ : PermutationLens, lens₂.seed = lens.seed →
        lens₂.views text = lens.views text) ∧
    ((permSegments text).length < 2 →
      lens.views text = [{ name := "orig", payload := text, meta := [] }]) ∧
    (2 ≤ (permSegments text).length →
      lens.views text =
        [{ name := "orig", payload := text, meta := [] },
         { name := "perm_seed_" ++ toString lens.seed,
           payload := permutedSpec lens.seed text,
           meta := [("seed", toString lens.seed),
                    ("n_parts", toString (permSegments text).length)] }]) := by
  refine ⟨?_, ?_, ?_⟩
  · intro lens₂ h
    simp [PermutationLens.views, h]
  · intro h
    simp [PermutationLens.views, if_pos h]
  · intro h
    have hlt : ¬ (permSegments text).length < 2 := not_lt.mpr h
    simp only [PermutationLens.views, if_neg hlt, permutedSpec, shuffleAux_mod,
      List.singleton_append]

theorem permutation_views_spec_witness :
    2 ≤ (permSegments "A. B.").length ∧
    PermutationLens.views { id := "permutation", seed := 0 } "A. B." =
      [{ name := "orig", payload := "A. B.", meta := [] },
       { name := "perm_seed_" ++ toString (0 : Nat),
         payload := permutedSpec 0 "A. B.",
         meta := [("seed", toString (0 : Nat)),
                  ("n_parts", toString (permSegments "A. B.").length)] }] :=
  ⟨by decide, (permutation_views_spec { id := "permutation", seed := 0 } "A. B.").2.2
      (by decide)⟩

/-- Report of one omega estimation step (`omnia/omega.py`, class `OmegaReport`);
the `meta` dict is flattened into one field per key. -/
structure OmegaReport where
  invariance : ℚ
  delta_invariance : ℚ
  fractures : List String
  sei : ℚ
  iri : ℚ
  meta_n_views : Nat
  meta_epsilon : ℚ
  meta_max_iters : Nat
  meta_dedupe_views : Bool
deriving Repr, DecidableEq

/-- `_clamp01` from `omnia/omega.py`. -/
def clamp01 (x : ℚ) : ℚ := if x < 0 then 0 else if 1 < x then 1 else x

/-- `_dedupe_reps_by_name` from `omnia/omega.py`: keep the first occurrence
of every representation name. -/
def dedupeRepsByName (reps : List Representation) : List Representation :=
  reps.foldl
    (fun acc r => if acc.any (fun s => s.name = r.name) then acc else acc ++ [r]) []

/-- `omnia/omega.py`, class `OmegaEstimator`.  The `compute_sei` and
`compute_iri` hooks are optional imports from `omnia.sei` and
`omnia.irreversibility`, modules absent from the repository, so they default
to `none`; per the source, a missing (or failing) hook yields the defaults
`sei = 1.0` and `iri = 0.0`. -/
structure OmegaEstimator where
  kernel : SuperpositionKernel
  epsilon : ℚ := 1/1000
  max_iters : Nat := 10
  dedupe_views : Bool := true
  compute_sei : Option (List OmegaReport → SuperpositionReport → ℚ) := none
  compute_iri : Option (List OmegaReport → SuperpositionReport → ℚ) := none

/-- `OmegaEstimator.estimate` (`omnia/omega.py`, lines 92-146): concatenate
the views of every lens, optionally dedupe by name, run the kernel, clamp the
invariance, and take the previous invariance from the last history entry (or
the current invariance itself when the history is empty). -/
def OmegaEstimator.estimate (e : OmegaEstimator) (obj : String)
    (lenses : List (String → List Representation)) (history : List OmegaReport) :
    OmegaReport :=
  let reps := lenses.flatMap (fun lens => lens obj)
  let reps := if e.dedupe_views then dedupeRepsByName reps else reps
  let sp := e.kernel.run reps
  let inv := clamp01 sp.invariance
  let prev_inv :=
    match history.getLast? with
    | some r => r.invariance
    | none => inv
  let delta_inv := |inv - prev_inv|
  let sei :=
    match history, e.compute_sei with
    | _ :: _, some f => f history sp
    | _, _ => 1
  let iri :=
    match history, e.compute_iri with
    | _ :: _, some f => f history sp
    | _, _ => 0
  { invariance := inv
    delta_invariance := delta_inv
    fractures := sp.fractures
    sei := sei
    iri := iri
    meta_n_views := sp.meta_n_views
    meta_epsilon := e.epsilon
    meta_max_iters := e.max_iters
    meta_dedupe_views := e.dedupe_views }

/-- `OmegaEstimator.converged` (`omnia/omega.py`, lines 148-154). -/
def OmegaEstimator.converged (e : OmegaEstimator) (history : List OmegaReport) : Bool :=
  match history.reverse with
  | last :: prev :: _ => decide (|last.invariance - prev.invariance| < e.epsilon)
  | _ => false

/-- C8: `OmegaEstimator.estimate` reports
`delta_invariance = |invariance - history[-1].invariance|` when the history is
non-empty, and `delta_invariance = 0` when the history is empty. -/
theorem omega_estimate_delta (e : OmegaEstimator) (obj : String)
    (lenses : List (String → List Representation)) (history : List OmegaReport) :
    (history = [] → (e.estimate obj lenses history).delta_invariance = 0) ∧
    (∀ p, history.getLast? = some p →
        (e.estimate obj lenses history).delta_invariance =
          |(e.estimate obj lenses history).invariance - p.invariance|) := by
  constructor
  · intro h
    subst h
    simp [OmegaEstimator.estimate]
  · intro p hp
    simp [OmegaEstimator.estimate, hp]

theorem omega_estimate_delta_witness :
    (([] : List OmegaReport) = [] ∧
      (OmegaEstimator.estimate { kernel := SuperpositionKernel.mk (fun _ _ => 0) }
        "x" [] []).delta_invariance = 0) :=
  ⟨rfl, (omega_estimate_delta { kernel := SuperpositionKernel.mk (fun _ _ => 0) }
      "x" [] []).1 rfl⟩

/-- `omnia/zea.py`, enum `ZEAStatus`. -/
inductive ZEAStatus where
  | ADMISSIBLE
  | SATURATED
  | ILLEGITIMATE
deriving Repr, DecidableEq

/-- `omnia/zea.py`, dataclass `ZEAConfig` with its defaults. -/
structure ZEAConfig where
  eps : ℚ := 1/1000000000
  delta_omega_floor : ℚ := 0
  saturated_margin_max : ℚ := 8/100
  snrc_agg : String := "max"

/-- `omnia/zea.py`, dataclass `ZEAReport`; the `details` dict is modelled by
its one classification-relevant entry, `details["snrc_pressure"]`. -/
structure ZEAReport where
  status : ZEAStatus
  delta_omega : ℚ
  omega_before : ℚ
  omega_after : ℚ
  snrc_candidate : Bool
  saturation_margin : ℚ
  notes : String
  details_snrc_pressure : ℚ
deriving Repr, DecidableEq

/-- Modelled from the spec: `omnia/zea.py`, class `ZEA`, calls three methods
that exist nowhere in the repository — `OmegaEstimator.estimate_from_text`
(the single-text omega shortcut, an open question in the spec),
`SuperpositionKernel.distance` (the bounded text-distance collaborator), and
`apply` on each lens (one transformed view of a text).  They are modelled as
injected deterministic functions, fields of this structure, exactly as the
spec describes them; everything else below follows the source of
`omnia/zea.py`. -/
structure ZEA where
  omega_estimate_from_text : String → ℚ
  kernel_distance : String → String → ℚ
  compression_apply : String → String
  permutation_apply : String → String
  constraints_apply : String → String
  cfg : ZEAConfig

/-- `ZEA._lens_instability_scores` (`omnia/zea.py`, lines 170-193): the dict
with keys `compression`, `permutation`, `constraints` is modelled as a triple
in that order; every kernel distance is clamped to `[0,1]` (the float NaN
guard maps NaN to `1.0`, a case absent from the rational model). -/
def ZEA.lens_instability_scores (z : ZEA) (text : String) : ℚ × ℚ × ℚ :=
  let d := fun (a b : String) => max 0 (min 1 (z.kernel_distance a b))
  (d text (z.compression_apply text),
   d text (z.permutation_apply text),
   d text (z.constraints_apply text))

/-- `ZEA._snrc_pressure_pair` (`omnia/zea.py`, lines 134-168): per-family
relative pressure `clamp((c - b) / max(eps, b + 1e-6), 0, 1)`, aggregated by
mean or (default) maximum. -/
def ZEA.snrc_pressure_pair (z : ZEA) (baseline candidate : String) : ℚ :=
  let b := z.lens_instability_scores baseline
  let c := z.lens_instability_scores candidate
  let rel := fun (bv cv : ℚ) =>
    min 1 (max 0 ((cv - bv) / max z.cfg.eps (bv + 1/1000000)))
  let r1 := rel b.1 c.1
  let r2 := rel b.2.1 c.2.1
  let r3 := rel b.2.2 c.2.2
  if z.cfg.snrc_agg = "mean" then (r1 + r2 + r3) / 3
  else max r1 (max r2 r3)

/-- `ZEA.evaluate_text` (`omnia/zea.py`, lines 78-132). -/
def ZEA.evaluate_text (z : ZEA) (baseline_text candidate_text : String) : ZEAReport :=
  let omega_before := z.omega_estimate_from_text baseline_text
  let omega_after := z.omega_estimate_from_text candidate_text
  let delta_omega := omega_after - omega_before
  let snrc_pressure := z.snrc_pressure_pair baseline_text candidate_text
  let saturation_margin := max 0 (1 - snrc_pressure)
  let sn : ZEAStatus × String :=
    if delta_omega < z.cfg.delta_omega_floor - z.cfg.eps then
      (ZEAStatus.ILLEGITIMATE,
       "candidate reduces invariant residue (structural regression)")
    else if snrc_pressure ≥ 1 - z.cfg.eps then
      (ZEAStatus.ILLEGITIMATE,
       "SNRC pressure at max: candidate collapses under superposition (noise regime)")
    else if saturation_margin ≤ z.cfg.saturated_margin_max + z.cfg.eps then
      (ZEAStatus.SATURATED,
       "Near boundary: admissible but at saturation edge (high fragility)")
    else
      (ZEAStatus.ADMISSIBLE,
       "Within admissible expansion zone: stable under lenses")
  let snrc_candidate :=
    (sn.1 == ZEAStatus.SATURATED || sn.1 == ZEAStatus.ILLEGITIMATE) &&
      decide (snrc_pressure > 1/2)
  { status := sn.1
    delta_omega := delta_omega
    omega_before := omega_before
    omega_after := omega_after
    snrc_candidate := snrc_candidate
    saturation_margin := saturation_margin
    notes := sn.2
    details_snrc_pressure := snrc_pressure }

/-- C2: `ZEA.evaluate_text` classifies with exactly the precedence
ILLEGITIMATE on structural regression, else ILLEGITIMATE on pressure at the
ceiling, else SATURATED near the boundary, else ADMISSIBLE; the saturation
margin is `max(0, 1 - pressure)` and `snrc_candidate` holds iff the status is
SATURATED or ILLEGITIMATE and the pressure exceeds `0.5`. -/
theorem zea_classification_order (z : ZEA) (b c : String) :
    ((z.evaluate_text b c).status = ZEAStatus.ILLEGITIMATE ↔
      ((z.evaluate_text b c).delta_omega < z.cfg.delta_omega_floor - z.cfg.eps ∨
       (¬ (z.evaluate_text b c).delta_omega < z.cfg.delta_omega_floor - z.cfg.eps ∧
        z.snrc_pressure_pair b c ≥ 1 - z.cfg.eps))) ∧
    ((z.evaluate_text b c).status = ZEAStatus.SATURATED ↔
      (¬ (z.evaluate_text b c).delta_omega < z.cfg.delta_omega_floor - z.cfg.eps ∧
       ¬ z.snrc_pressure_pair b c ≥ 1 - z.cfg.eps ∧
       (z.evaluate_text b c).saturation_margin ≤
         z.cfg.saturated_margin_max + z.cfg.eps)) ∧
    ((z.evaluate_text b c).status = ZEAStatus.ADMISSIBLE ↔
      (¬ (z.evaluate_text b c).delta_omega < z.cfg.delta_omega_floor - z.cfg.eps ∧
       ¬ z.snrc_pressure_pair b c ≥ 1 - z.cfg.eps ∧
       ¬ (z.evaluate_text b c).saturation_margin ≤
         z.cfg.saturated_margin_max + z.cfg.eps)) ∧
    (z.evaluate_text b c).saturation_margin =
      max 0 (1 - z.snrc_pressure_pair b c) ∧
    ((z.evaluate_text b c).snrc_candidate = true ↔
      (((z.evaluate_text b c).status = ZEAStatus.SATURATED ∨
        (z.evaluate_text b c).status = ZEAStatus.ILLEGITIMATE) ∧
       z.snrc_pressure_pair b c > 1/2)) := by
  simp only [ZEA.evaluate_text]
  split_ifs with h1 h2 h3 <;>
    simp_all [Bool.and_eq_true, Bool.or_eq_true, beq_iff_eq, decide_eq_true_eq]

theorem snrc_pressure_self (z : ZEA) (t : String) : z.snrc_pressure_pair t t = 0 := by
  simp [ZEA.snrc_pressure_pair]

/-- C3: for identical baseline and candidate texts, `ZEA.evaluate_text`
reports `delta_omega = 0`, SNRC pressure `0`, saturation margin `1` and status
ADMISSIBLE (under the configured thresholds, which the defaults satisfy:
`delta_omega_floor ≤ eps`, `eps < 1` and `saturated_margin_max + eps < 1`). -/
theorem zea_identity_admissible (z : ZEA)
    (h1 : z.cfg.delta_omega_floor ≤ z.cfg.eps)
    (h2 : z.cfg.eps < 1)
    (h3 : z.cfg.saturated_margin_max + z.cfg.eps < 1) (t : String) :
    z.evaluate_text t t =
      { status := ZEAStatus.ADMISSIBLE
        delta_omega := 0
        omega_before := z.omega_estimate_from_text t
        omega_after := z.omega_estimate_from_text t
        snrc_candidate := false
        saturation_margin := 1
        notes := "Within admissible expansion zone: stable under lenses"
        details_snrc_pressure := 0 } := by
  have hp := snrc_pressure_self z t
  have hc1 : ¬ (z.omega_estimate_from_text t - z.omega_estimate_from_text t <
      z.cfg.delta_omega_floor - z.cfg.eps) := by
    rw [sub_self]
    intro hlt
    linarith
  have hc2 : ¬ (z.snrc_pressure_pair t t ≥ 1 - z.cfg.eps) := by
    rw [hp]
    intro hge
    linarith
  have hm : max (0 : ℚ) (1 - z.snrc_pressure_pair t t) = 1 := by
    rw [hp]
    norm_num
  have hc3 : ¬ (max (0 : ℚ) (1 - z.snrc_pressure_pair t t) ≤
      z.cfg.saturated_margin_max + z.cfg.eps) := by
    rw [hm]
    intro hle
    linarith
  simp only [ZEA.evaluate_text, if_neg hc1, if_neg hc2, if_neg hc3]
  simp [hp, hm]

theorem zea_identity_admissible_witness :
    ((0 : ℚ) ≤ 1/1000000000 ∧ (1 : ℚ)/1000000000 < 1 ∧
      (8 : ℚ)/100 + 1/1000000000 < 1) ∧
    ZEA.evaluate_text
        { omega_estimate_from_text := fun _ => 0
          kernel_distance := fun _ _ => 0
          compression_apply := id
          permutation_apply := id
          constraints_apply := id
          cfg := {} } "t" "t" =
      { status := ZEAStatus.ADMISSIBLE
        delta_omega := 0
        omega_before := 0
        omega_after := 0
        snrc_candidate := false
        saturation_margin := 1
        notes := "Within admissible expansion zone: stable under lenses"
        details_snrc_pressure := 0 } :=
  ⟨⟨by norm_num, by norm_num, by norm_num⟩,
    zea_identity_admissible
      { omega_estimate_from_text := fun _ => 0
        kernel_distance := fun _ _ => 0
        compression_apply := id
        permutation_apply := id
        constraints_apply := id
        cfg := {} }
      (by norm_num) (by norm_num) (by norm_num) "t"⟩

/-- Split a character list at every character satisfying the predicate
(empty groups kept), like Python's `str.split(sep)` generalised. -/
def splitOnPred (p : Char → Bool) : List Char → List (List Char)
  | [] => [[]]
  | c :: rest =>
      let r := splitOnPred p rest
      if p c then [] :: r
      else
        match r with
        | [] => [[c]]
        | g :: gs => (c :: g) :: gs

/-- Python's no-argument `str.split()`: whitespace-separated words, empties
dropped. -/
def pySplitWhitespace (s : String) : List String :=
  ((splitOnPred (fun c => c.isWhitespace) s.data).map String.mk).filter
    (fun w => w ≠ "")

/-- `sub` starts the list `s`. -/
def startsWithChars : List Char → List Char → Bool
  | _, [] => true
  | [], _ :: _ => false
  | c :: cs, d :: ds => (c == d) && startsWithChars cs ds

/-- Substring containment, Python's `sub in s`. -/
def containsChars (sub : List Char) : List Char → Bool
  | [] => startsWithChars [] sub
  | c :: cs => startsWithChars (c :: cs) sub || containsChars sub cs

/-- Python's `sub in s` on strings. -/
def pyContains (s sub : String) : Bool := containsChars sub.data s.data

/-- `ConstrainedGenerator._split_sentences` (`omnia/generator.py`,
lines 117-121). -/
def splitSentences (text : String) : List String :=
  ((pySplitDot (text.replace "\n" " ")).map pyStrip).filter (fun s => s ≠ "")

/-- `ConstrainedGenerator._join_sentences` (`omnia/generator.py`,
lines 123-124). -/
def joinSentences (sents : List String) : String :=
  pyStrip (String.intercalate ". " sents) ++ "."

/-- `ConstrainedGenerator._op_add_structural_clauses`. -/
def op_add_structural_clauses (text : String) : String :=
  let s := pyStrip text
  let tail := " It measures invariants under transformations and stops at structural saturation."
  if pyContains s (pyStrip tail) then s else s ++ tail

/-- `ConstrainedGenerator._op_remove_redundancy`. -/
def op_remove_redundancy (text : String) : String :=
  let s := String.intercalate " " (pySplitWhitespace text)
  let s := s.replace "does not interpret meaning" "does not interpret semantics"
  s.replace "does not interpret semantics or decide actions"
    "does not interpret semantics and does not decide actions"

/-- `ConstrainedGenerator._op_normalize_negations`. -/
def op_normalize_negations (text : String) : String :=
  let sents := splitSentences text
  let mapped := sents.map (fun s =>
    let s2 := pyStrip s
    let s2 := s2.replace "It does not interpret meaning" "It does not interpret semantics"
    s2.replace "It does not make decisions" "It does not decide actions")
  joinSentences mapped

/-- `ConstrainedGenerator._op_reorder_clauses`: definitions first, then the
other sentences, negations last. -/
def op_reorder_clauses (text : String) : String :=
  let sents := splitSentences text
  if sents.length < 2 then text
  else
    let isDef := fun (s : String) =>
      pyContains s.toLower " is " || s.toLower.startsWith "omnia"
    let isNeg := fun (s : String) => pyContains s.toLower "does not"
    let defs := sents.filter (fun s => isDef s)
    let neg := sents.filter (fun s => !(isDef s) && isNeg s)
    let other := sents.filter (fun s => !(isDef s) && !(isNeg s))
    joinSentences (defs ++ other ++ neg)

/-- `ConstrainedGenerator._op_add_scope_limits`. -/
def op_add_scope_limits (text : String) : String :=
  let s := pyStrip text
  let clause := " It is model-agnostic and post-inference: it evaluates outputs, not intentions."
  if pyContains s (pyStrip clause) then s else s ++ clause

/-- `ConstrainedGenerator._op_make_measurable`. -/
def op_make_measurable (text : String) : String :=
  let s := pyStrip text
  let clause := " Output is a certificate: ADMISSIBLE, SATURATED, or ILLEGITIMATE."
  if pyContains s (pyStrip clause) then s else s ++ clause

/-- A mechanically produced text variant (`omnia/generator.py`, dataclass
`Candidate`); its `meta` dict is always exactly the `op` tag and is therefore
not modelled separately. -/
structure Candidate where
  text : String
  op : String
deriving Repr, DecidableEq

/-- The fixed, ordered operator list of `ConstrainedGenerator._candidates`. -/
def candidateOps : List (String × (String → String)) :=
  [("_op_add_structural_clauses", op_add_structural_clauses),
   ("_op_remove_redundancy", op_remove_redundancy),
   ("_op_normalize_negations", op_normalize_negations),
   ("_op_reorder_clauses", op_reorder_clauses),
   ("_op_add_scope_limits", op_add_scope_limits),
   ("_op_make_measurable", op_make_measurable)]

/-- `ConstrainedGenerator._candidates` (`omnia/generator.py`, lines 90-115):
apply every operator in order, keep outputs that are non-empty after
stripping, differ from the input and were not already produced by an earlier
operator in the same application. -/
def candidatesFor (text : String) : List Candidate :=
  (candidateOps.foldl
    (fun (acc : List Candidate × List String) fnpair =>
      let out := fnpair.2 text
      if out = "" then acc
      else
        let out := pyStrip out
        if out = "" then acc
        else if out = text then acc
        else if acc.2.contains out then acc
        else (acc.1 ++ [{ text := out, op := fnpair.1 }], acc.2 ++ [out]))
    ([], [])).1

/-- `omnia/generator.py`, dataclass `GenerationResult`. -/
structure GenerationResult where
  baseline : String
  accepted : List (Candidate × ZEAReport)
  saturated : List (Candidate × ZEAReport)
  rejected : List (Candidate × ZEAReport)

/-- `omnia/generator.py`, class `ConstrainedGenerator`: it holds the ZEA
filter. -/
structure ConstrainedGenerator where
  zea : ZEA

/-- The mutable state of one `ConstrainedGenerator.generate` run: the three
accumulating buckets plus the current pool. -/
structure GenState where
  accepted : List (Candidate × ZEAReport)
  saturated : List (Candidate × ZEAReport)
  rejected : List (Candidate × ZEAReport)
  pool : List String

/-- The inner candidate loop of `ConstrainedGenerator.generate`: evaluate
each candidate against the fixed baseline and route it to the bucket its
status selects, collecting `(text, margin)` for admissible ones. -/
def classifyCandidates (z : ZEA) (baseline : String) :
    List Candidate →
      List (Candidate × ZEAReport) × List (Candidate × ZEAReport) ×
        List (Candidate × ZEAReport) × List (String × ℚ)
  | [] => ([], [], [], [])
  | cand :: rest =>
      let rep := z.evaluate_text baseline cand.text
      let r := classifyCandidates z baseline rest
      if rep.status = ZEAStatus.ADMISSIBLE then
        ((cand, rep) :: r.1, r.2.1, r.2.2.1, (cand.text, rep.saturation_margin) :: r.2.2.2)
      else if rep.status = ZEAStatus.SATURATED then
        (r.1, (cand, rep) :: r.2.1, r.2.2.1, r.2.2.2)
      else
        (r.1, r.2.1, (cand, rep) :: r.2.2.1, r.2.2.2)

/-- One round of `ConstrainedGenerator.generate` (`omnia/generator.py`,
lines 61-78): evaluate the candidates of every pool text, extend the buckets,
then keep the `max(1, top_k)` admissible texts with the largest saturation
margins as the next pool (Python's stable `sort(reverse=True)` on the margin
is the stable merge sort with the flipped order). -/
def generatorRound (z : ZEA) (baseline : String) (top_k : Nat) (st : GenState) :
    GenState :=
  let cands := st.pool.flatMap candidatesFor
  let r := classifyCandidates z baseline cands
  let sorted := r.2.2.2.mergeSort (fun a b => decide (b.2 ≤ a.2))
  { accepted := st.accepted ++ r.1
    saturated := st.saturated ++ r.2.1
    rejected := st.rejected ++ r.2.2.1
    pool := (sorted.take (max 1 top_k)).map Prod.fst }

/-- `ConstrainedGenerator.generate` (`omnia/generator.py`, lines 40-85):
exactly `rounds` rounds starting from the pool `[baseline]`; the per-call
`meta` only decorates report details and does not influence any
classification, so it is not modelled. -/
def ConstrainedGenerator.generate (g : ConstrainedGenerator) (baseline : String)
    (rounds top_k : Nat) : GenerationResult :=
  let final := (generatorRound g.zea baseline top_k)^[rounds]
    { accepted := [], saturated := [], rejected := [], pool := [baseline] }
  { baseline := baseline
    accepted := final.accepted
    saturated := final.saturated
    rejected := final.rejected }

/-- The claim's description of one round's admissible outcomes: the
`(text, saturation_margin)` pairs of exactly those candidates whose
evaluation is ADMISSIBLE, in generation order. -/
def admissiblePairs (z : ZEA) (baseline : String) (cands : List Candidate) :
    List (String × ℚ) :=
  (cands.map (fun cand => (cand, z.evaluate_text baseline cand.text))).filterMap
    (fun cr =>
      if cr.2.status = ZEAStatus.ADMISSIBLE then
        some (cr.1.text, cr.2.saturation_margin)
      else none)

theorem classify_admissible_component (z : ZEA) (b : String) (cs : List Candidate) :
    (classifyCandidates z b cs).2.2.2 = admissiblePairs z b cs := by
  induction cs with
  | nil => rfl
  | cons c rest ih =>
      simp only [classifyCandidates, admissiblePairs, List.map_cons,
        List.filterMap_cons] at *
      split_ifs with h1 h2 <;> simp_all

theorem iterate_buckets_grow (z : ZEA) (baseline : String) (top_k : Nat)
    (st : GenState) (n : Nat) :
    ∃ ta tb tc,
      ((generatorRound z baseline top_k)^[n] st).accepted = st.accepted ++ ta ∧
      ((generatorRound z baseline top_k)^[n] st).saturated = st.saturated ++ tb ∧
      ((generatorRound z baseline top_k)^[n] st).rejected = st.rejected ++ tc := by
  induction n with
  | zero => exact ⟨[], [], [], by simp, by simp, by simp⟩
  | succ n ih =>
      obtain ⟨ta, tb, tc, ha, hb, hc⟩ := ih
      refine ⟨ta ++ (classifyCandidates z baseline
          (((generatorRound z baseline top_k)^[n] st).pool.flatMap candidatesFor)).1,
        tb ++ (classifyCandidates z baseline
          (((generatorRound z baseline top_k)^[n] st).pool.flatMap candidatesFor)).2.1,
        tc ++ (classifyCandidates z baseline
          (((generatorRound z baseline top_k)^[n] st).pool.flatMap candidatesFor)).2.2.1,
        ?_, ?_, ?_⟩ <;>
      rw [Function.iterate_succ_apply'] <;>
      simp only [generatorRound] <;>
      simp [ha, hb, hc]

/-- A ZEA instance over trivial injected functions, used to instantiate
universally quantified theorems at a concrete input. -/
def zTrivial : ZEA :=
  { omega_estimate_from_text := fun _ => 0
    kernel_distance := fun _ _ => 0
    compression_apply := id
    permutation_apply := id
    constraints_apply := id
    cfg := {} }

/-- C4: after each generator round the next pool is exactly that round's
ADMISSIBLE candidates' texts sorted by saturation margin descending and
truncated to `max(1, top_k)`; the three buckets only ever grow across the
exactly `rounds` iterations of the round step, which start from the pool
`[baseline]`. -/
theorem generator_rounds_spec (g : ConstrainedGenerator) (baseline : String)
    (top_k : Nat) :
    (∀ st : GenState,
      (generatorRound g.zea baseline top_k st).pool =
        (((admissiblePairs g.zea baseline (st.pool.flatMap candidatesFor)).mergeSort
            (fun a b => decide (b.2 ≤ a.2))).take (max 1 top_k)).map Prod.fst) ∧
    (∀ st : GenState,
      List.Sorted (fun a b : String × ℚ => b.2 ≤ a.2)
        ((admissiblePairs g.zea baseline (st.pool.flatMap candidatesFor)).mergeSort
          (fun a b => decide (b.2 ≤ a.2)))) ∧
    (∀ rounds : Nat,
      g.generate baseline rounds top_k =
        { baseline := baseline
          accepted := ((generatorRound g.zea baseline top_k)^[rounds]
            { accepted := [], saturated := [], rejected := [],
              pool := [baseline] }).accepted
          saturated := ((generatorRound g.zea baseline top_k)^[rounds]
            { accepted := [], saturated := [], rejected := [],
              pool := [baseline] }).saturated
          rejected := ((generatorRound g.zea baseline top_k)^[rounds]
            { accepted := [], saturated := [], rejected := [],
              pool := [baseline] }).rejected }) ∧
    (∀ m n : Nat, m ≤ n →
      ∃ ta tb tc,
        ((generatorRound g.zea baseline top_k)^[n]
            { accepted := [], saturated := [], rejected := [],
              pool := [baseline] }).accepted =
          ((generatorRound g.zea baseline top_k)^[m]
            { accepted := [], saturated := [], rejected := [],
              pool := [baseline] }).accepted ++ ta ∧
        ((generatorRound g.zea baseline top_k)^[n]
            { accepted := [], saturated := [], rejected := [],
              pool := [baseline] }).saturated =
          ((generatorRound g.zea baseline top_k)^[m]
            { accepted := [], saturated := [], rejected := [],
              pool := [baseline] }).saturated ++ tb ∧
        ((generatorRound g.zea baseline top_k)^[n]
            { accepted := [], saturated := [], rejected := [],
              pool := [baseline] }).rejected =
          ((generatorRound g.zea baseline top_k)^[m]
            { accepted := [], saturated := [], rejected := [],
              pool := [baseline] }).rejected ++ tc) := by
  refine ⟨?_, ?_, ?_, ?_⟩
  · intro st
    simp only [generatorRound, classify_admissible_component]
  · intro st
    refine List.Pairwise.imp ?_ (List.sorted_mergeSort ?_ ?_ _)
    · intro a b h
      exact of_decide_eq_true h
    · intro a b c hab hbc
      simp only [decide_eq_true_eq] at hab hbc ⊢
      exact le_trans hbc hab
    · intro a b
      simp only [Bool.or_eq_true, decide_eq_true_eq]
      exact le_total b.2 a.2
  · intro rounds
    rfl
  · intro m n hmn
    obtain ⟨ta, tb, tc, ha, hb, hc⟩ :=
      iterate_buckets_grow g.zea baseline top_k
        ((generatorRound g.zea baseline top_k)^[m]
          { accepted := [], saturated := [], rejected := [], pool := [baseline] })
        (n - m)
    refine ⟨ta, tb, tc, ?_, ?_, ?_⟩ <;>
      rw [← Nat.sub_add_cancel hmn, Function.iterate_add_apply] <;>
      assumption

theorem generator_rounds_spec_witness :
    (0 : Nat) ≤ 1 ∧
    ∃ ta tb tc,
      ((generatorRound zTrivial "b" 8)^[1]
          { accepted := [], saturated := [], rejected := [],
            pool := ["b"] }).accepted =
        ((generatorRound zTrivial "b" 8)^[0]
          { accepted := [], saturated := [], rejected := [],
            pool := ["b"] }).accepted ++ ta ∧
      ((generatorRound zTrivial "b" 8)^[1]
          { accepted := [], saturated := [], rejected := [],
            pool := ["b"] }).saturated =
        ((generatorRound zTrivial "b" 8)^[0]
          { accepted := [], saturated := [], rejected := [],
            pool := ["b"] }).saturated ++ tb ∧
      ((generatorRound zTrivial "b" 8)^[1]
          { accepted := [], saturated := [], rejected := [],
            pool := ["b"] }).rejected =
        ((generatorRound zTrivial "b" 8)^[0]
          { accepted := [], saturated := [], rejected := [],
            pool := ["b"] }).rejected ++ tc :=
  ⟨by decide,
    (generator_rounds_spec (ConstrainedGenerator.mk zTrivial) "b" 8).2.2.2 0 1
      (by decide)⟩

/-- `omnia/cas.py`, dataclass `CASConfig`.  The bucket cap is a Python `int`
and is therefore modelled as `ℤ`. -/
structure CASConfig where
  schema_version : String := "CAS-1.0"
  engine : String := "OMNIA"
  artifact : String := "CAS"
  max_items_per_bucket : Int := 25

/-- Python's `xs[:k]` for an arbitrary (possibly negative) `k`:
a nonnegative `k` keeps the first `k` items, a negative `k` drops the last
`-k` items. -/
def pySliceTo {α : Type} (k : Int) (xs : List α) : List α :=
  if 0 ≤ k then xs.take k.toNat else xs.take (xs.length - (-k).toNat)

/-- The plain record `_pack_item` builds from one `(Candidate, ZEAReport)`
pair (`omnia/cas.py`, lines 25-36); `details` is carried as its
classification-relevant `snrc_pressure` entry. -/
structure PackedItem where
  op : String
  text : String
  delta_omega : ℚ
  omega_before : ℚ
  omega_after : ℚ
  snrc_candidate : Bool
  saturation_margin : ℚ
  notes : String
  details_snrc_pressure : ℚ
deriving Repr, DecidableEq

/-- `_pack_item` (`omnia/cas.py`, lines 25-36). -/
def packItem (c : Candidate) (r : ZEAReport) : PackedItem :=
  { op := c.op
    text := c.text
    delta_omega := r.delta_omega
    omega_before := r.omega_before
    omega_after := r.omega_after
    snrc_candidate := r.snrc_candidate
    saturation_margin := r.saturation_margin
    notes := r.notes
    details_snrc_pressure := r.details_snrc_pressure }

/-- The `summary.counts` map of a certificate. -/
structure CASCounts where
  accepted : Nat
  saturated : Nat
  rejected : Nat
deriving Repr, DecidableEq

/-- The `summary` map of a certificate. -/
structure CASSummary where
  status : String
  stop_recommended : Bool
  stop_reason : String
  counts : CASCounts
deriving Repr, DecidableEq

/-- The certificate payload `CASBuilder.build` returns (`omnia/cas.py`,
lines 76-98); `timestamp_utc` (wall clock) and the pass-through `run_meta`
are outside the deterministic model. -/
structure Certificate where
  schema : String
  engine : String
  artifact : String
  baseline_text : String
  summary : CASSummary
  buckets_accepted : List PackedItem
  buckets_saturated : List PackedItem
  buckets_rejected : List PackedItem
deriving Repr, DecidableEq

/-- `CASBuilder.build` (`omnia/cas.py`, lines 49-100): slice each bucket to
`max_items_per_bucket`, pack the items, roll up the global status from the
full (unsliced) bucket lengths and derive the stop recommendation. -/
def CASBuilder.build (cfg : CASConfig) (result : GenerationResult) : Certificate :=
  let acc := (pySliceTo cfg.max_items_per_bucket result.accepted).map
    (fun cr => packItem cr.1 cr.2)
  let sat := (pySliceTo cfg.max_items_per_bucket result.saturated).map
    (fun cr => packItem cr.1 cr.2)
  let rej := (pySliceTo cfg.max_items_per_bucket result.rejected).map
    (fun cr => packItem cr.1 cr.2)
  let status := "OPEN"
  let status :=
    if result.accepted.length = 0 ∧ result.saturated.length > 0 then "SATURATED"
    else status
  let status :=
    if result.accepted.length = 0 ∧ result.saturated.length = 0 then "ILLEGITIMATE"
    else status
  let stop := status = "SATURATED" ∨ status = "ILLEGITIMATE"
  { schema := cfg.schema_version
    engine := cfg.engine
    artifact := cfg.artifact
    baseline_text := result.baseline
    summary :=
      { status := status
        stop_recommended := decide stop
        stop_reason :=
          if status = "SATURATED" then "structural_saturation"
          else if status = "ILLEGITIMATE" then "noise_regime"
          else "continue"
        counts :=
          { accepted := result.accepted.length
            saturated := result.saturated.length
            rejected := result.rejected.length } }
    buckets_accepted := acc
    buckets_saturated := sat
    buckets_rejected := rej }

/-- C6: `CASBuilder.build` rolls the global status up as SATURATED iff there
are no accepted items but at least one saturated item, ILLEGITIMATE iff there
are neither accepted nor saturated items, OPEN otherwise; `stop_recommended`
holds iff the status is SATURATED or ILLEGITIMATE, and `stop_reason` is
`structural_saturation` for SATURATED, `noise_regime` for ILLEGITIMATE and
`continue` otherwise. -/
theorem cas_status_rollup (cfg : CASConfig) (result : GenerationResult) :
    ((CASBuilder.build cfg result).summary.status = "SATURATED" ↔
      (result.accepted.length = 0 ∧ 0 < result.saturated.length)) ∧
    ((CASBuilder.build cfg result).summary.status = "ILLEGITIMATE" ↔
      (result.accepted.length = 0 ∧ result.saturated.length = 0)) ∧
    ((CASBuilder.build cfg result).summary.status = "OPEN" ↔
      0 < result.accepted.length) ∧
    ((CASBuilder.build cfg result).summary.stop_recommended = true ↔
      ((CASBuilder.build cfg result).summary.status = "SATURATED" ∨
       (CASBuilder.build cfg result).summary.status = "ILLEGITIMATE")) ∧
    ((CASBuilder.build cfg result).summary.stop_reason = "structural_saturation" ↔
      (CASBuilder.build cfg result).summary.status = "SATURATED") ∧
    ((CASBuilder.build cfg result).summary.stop_reason = "noise_regime" ↔
      (CASBuilder.build cfg result).summary.status = "ILLEGITIMATE") ∧
    ((CASBuilder.build cfg result).summary.stop_reason = "continue" ↔
      (CASBuilder.build cfg result).summary.status = "OPEN") := by
  by_cases ha : result.accepted.length = 0 <;>
    by_cases hs : result.saturated.length = 0 <;>
      simp [CASBuilder.build, ha, hs, Nat.pos_of_ne_zero, Nat.pos_iff_ne_zero]

/-- C10 counterexample: with the constructible configuration
`max_items_per_bucket = -1` and one accepted item, the accepted bucket holds
`0` items, which is not at most `-1` — the claim fails for negative caps
(Python's `xs[:k]` drops items from the end for `k < 0`). -/
theorem cas_bucket_cap_counterexample :
    ¬ (((CASBuilder.build { max_items_per_bucket := -1 }
        { baseline := "b"
          accepted := [({ text := "t", op := "o" },
            { status := ZEAStatus.ADMISSIBLE, delta_omega := 0, omega_before := 0,
              omega_after := 0, snrc_candidate := false, saturation_margin := 1,
              notes := "", details_snrc_pressure := 0 })]
          saturated := []
          rejected := [] }).buckets_accepted.length : ℤ) ≤ -1) := by
  decide

/-- C10 amended: for every configuration with a nonnegative
`max_items_per_bucket`, each bucket of the built certificate holds at most
`max_items_per_bucket` items, taken earliest-first from the corresponding
result list, while `summary.counts` records the full uncapped lengths. -/
theorem cas_bucket_cap_spec (cfg : CASConfig) (result : GenerationResult)
    (h : 0 ≤ cfg.max_items_per_bucket) :
    ((CASBuilder.build cfg result).buckets_accepted.length : ℤ) ≤
        cfg.max_items_per_bucket ∧
    ((CASBuilder.build cfg result).buckets_saturated.length : ℤ) ≤
        cfg.max_items_per_bucket ∧
    ((CASBuilder.build cfg result).buckets_rejected.length : ℤ) ≤
        cfg.max_items_per_bucket ∧
    (CASBuilder.build cfg result).buckets_accepted =
      (result.accepted.map (fun cr => packItem cr.1 cr.2)).take
        cfg.max_items_per_bucket.toNat ∧
    (CASBuilder.build cfg result).buckets_saturated =
      (result.saturated.map (fun cr => packItem cr.1 cr.2)).take
        cfg.max_items_per_bucket.toNat ∧
    (CASBuilder.build cfg result).buckets_rejected =
      (result.rejected.map (fun cr => packItem cr.1 cr.2)).take
        cfg.max_items_per_bucket.toNat ∧
    (CASBuilder.build cfg result).summary.counts =
      { accepted := result.accepted.length
        saturated := result.saturated.length
        rejected := result.rejected.length } := by
  have hlen : ∀ (xs : List (Candidate × ZEAReport)),
      (((pySliceTo cfg.max_items_per_bucket xs).map
          (fun cr => packItem cr.1 cr.2)).length : ℤ) ≤ cfg.max_items_per_bucket := by
    intro xs
    rw [List.length_map]
    calc ((pySliceTo cfg.max_items_per_bucket xs).length : ℤ)
        ≤ (cfg.max_items_per_bucket.toNat : ℤ) := by
          simp only [pySliceTo, if_pos h]
          exact_mod_cast List.length_take_le _ _
      _ = cfg.max_items_per_bucket := Int.toNat_of_nonneg h
  refine ⟨hlen _, hlen _, hlen _, ?_, ?_, ?_, rfl⟩ <;>
    simp [CASBuilder.build, pySliceTo, if_pos h, List.map_take]

theorem cas_bucket_cap_spec_witness :
    (0 : ℤ) ≤ ({} : CASConfig).max_items_per_bucket ∧
    (CASBuilder.build {}
        { baseline := "b", accepted := [], saturated := [], rejected := [] }
      ).summary.counts =
      { accepted := 0, saturated := 0, rejected := 0 } :=
  ⟨by decide,
    (cas_bucket_cap_spec {}
        { baseline := "b", accepted := [], saturated := [], rejected := [] }
        (by decide)).2.2.2.2.2.2⟩

/-- `omnia/cas_diff.py`, dataclass `CASDiffConfig` with its defaults. -/
structure CASDiffConfig where
  eps : ℚ := 1/1000000000
  min_count_delta : Int := 1
  min_margin_delta : ℚ := 1/50
  min_delta_omega_delta : ℚ := 0
  loop_tol : ℚ := 1/50

/-- One bucket item of a loaded certificate as `CASDiff._stats` reads it:
each numeric field is `none` when the key is missing, non-numeric or NaN
(the `extract`/`snrc_pressure` filters of `omnia/cas_diff.py`, lines 45-74). -/
structure DiffItem where
  saturation_margin : Option ℚ
  delta_omega : Option ℚ
  details_snrc_pressure : Option ℚ
deriving Repr, DecidableEq

/-- A loaded certificate as the differ consumes it: its three bucket lists
(`_bucket` turns a missing or null bucket into the empty list, so the lists
are total here). -/
structure DiffCert where
  accepted : List DiffItem
  saturated : List DiffItem
  rejected : List DiffItem
deriving Repr, DecidableEq

/-- `_safe_mean` (`omnia/cas_diff.py`, lines 21-24). -/
def safeMean (xs : List ℚ) (default : ℚ) : ℚ :=
  if xs.isEmpty then default else xs.sum / xs.length

/-- Python's `min(xs)` with a default for the empty list, as used by
`_stats` (`min(acc_margins) if acc_margins else 0.0`). -/
def pyMin (xs : List ℚ) (default : ℚ) : ℚ :=
  match xs with
  | [] => default
  | x :: rest => rest.foldl min x

/-- The per-bucket statistics of the accepted bucket in `_stats`. -/
structure AccStats where
  mean_margin : ℚ
  min_margin : ℚ
  mean_delta_omega : ℚ
  min_delta_omega : ℚ
  mean_snrc_pressure : ℚ
deriving Repr, DecidableEq

/-- The per-bucket statistics of the saturated/rejected buckets in `_stats`. -/
structure SideStats where
  mean_margin : ℚ
  mean_delta_omega : ℚ
  mean_snrc_pressure : ℚ
deriving Repr, DecidableEq

/-- The six-key aggregate signature of `_stats`/`_signature_finalize`. -/
structure Signature where
  acc_rate : ℚ
  sat_rate : ℚ
  rej_rate : ℚ
  acc_mean_margin : ℚ
  acc_mean_domega : ℚ
  acc_mean_snrc : ℚ
deriving Repr, DecidableEq

/-- The full result of `_stats` (`omnia/cas_diff.py`, lines 40-108). -/
structure CertStats where
  counts_accepted : Nat
  counts_saturated : Nat
  counts_rejected : Nat
  accepted : AccStats
  saturated : SideStats
  rejected : SideStats
  signature : Signature
deriving Repr, DecidableEq

/-- `_stats` (`omnia/cas_diff.py`, lines 40-108): extract the numeric fields
per bucket, average them with default `0`, and seed the signature (the three
rates are filled in later by `_signature_finalize`). -/
def casStats (cert : DiffCert) : CertStats :=
  let acc_margins := cert.accepted.filterMap (fun it => it.saturation_margin)
  let sat_margins := cert.saturated.filterMap (fun it => it.saturation_margin)
  let rej_margins := cert.rejected.filterMap (fun it => it.saturation_margin)
  let acc_domega := cert.accepted.filterMap (fun it => it.delta_omega)
  let sat_domega := cert.saturated.filterMap (fun it => it.delta_omega)
  let rej_domega := cert.rejected.filterMap (fun it => it.delta_omega)
  let acc_snrc := cert.accepted.filterMap (fun it => it.details_snrc_pressure)
  let sat_snrc := cert.saturated.filterMap (fun it => it.details_snrc_pressure)
  let rej_snrc := cert.rejected.filterMap (fun it => it.details_snrc_pressure)
  { counts_accepted := cert.accepted.length
    counts_saturated := cert.saturated.length
    counts_rejected := cert.rejected.length
    accepted :=
      { mean_margin := safeMean acc_margins 0
        min_margin := pyMin acc_margins 0
        mean_delta_omega := safeMean acc_domega 0
        min_delta_omega := pyMin acc_domega 0
        mean_snrc_pressure := safeMean acc_snrc 0 }
    saturated :=
      { mean_margin := safeMean sat_margins 0
        mean_delta_omega := safeMean sat_domega 0
        mean_snrc_pressure := safeMean sat_snrc 0 }
    rejected :=
      { mean_margin := safeMean rej_margins 0
        mean_delta_omega := safeMean rej_domega 0
        mean_snrc_pressure := safeMean rej_snrc 0 }
    signature :=
      { acc_rate := 0
        sat_rate := 0
        rej_rate := 0
        acc_mean_margin := safeMean acc_margins 0
        acc_mean_domega := safeMean acc_domega 0
        acc_mean_snrc := safeMean acc_snrc 0 } }

/-- `_signature_finalize` (`omnia/cas_diff.py`, lines 111-122): fill the
rates in, dividing by `max(1, total)`. -/
def signatureFinalize (stats : CertStats) : Signature :=
  let total : Nat :=
    max 1 (stats.counts_accepted + stats.counts_saturated + stats.counts_rejected)
  { stats.signature with
    acc_rate := (stats.counts_accepted : ℚ) / total
    sat_rate := (stats.counts_saturated : ℚ) / total
    rej_rate := (stats.counts_rejected : ℚ) / total }

/-- `_sig_distance` (`omnia/cas_diff.py`, lines 125-133): normalised L1
distance over the union of the signature keys; both signatures always carry
exactly the same six keys, so the union is those six. -/
def sigDistance (a b : Signature) : ℚ :=
  (|a.acc_rate - b.acc_rate| + |a.sat_rate - b.sat_rate| +
   |a.rej_rate - b.rej_rate| + |a.acc_mean_margin - b.acc_mean_margin| +
   |a.acc_mean_domega - b.acc_mean_domega| +
   |a.acc_mean_snrc - b.acc_mean_snrc|) / 6

/-- The fields of the report `CASDiff.compare` returns that carry its
decision (`omnia/cas_diff.py`, lines 177-206); the snapshot/meta/timestamp
pass-through fields are not modelled. -/
structure CASDiffResult where
  a_stats : CertStats
  b_stats : CertStats
  a_signature : Signature
  b_signature : Signature
  delta_accepted : Int
  delta_accepted_mean_margin : ℚ
  delta_accepted_mean_delta_omega : ℚ
  delta_accepted_mean_snrc_pressure : ℚ
  signature_distance : ℚ
  loop_like : Bool
  verdict_label : String
  verdict_reason : String
  loop_warning : Bool
deriving Repr, DecidableEq

/-- `CASDiff.compare` (`omnia/cas_diff.py`, lines 140-206), `a` the older and
`b` the newer certificate. -/
def CASDiff.compare (cfg : CASDiffConfig) (a b : DiffCert) : CASDiffResult :=
  let sa := casStats a
  let sb := casStats b
  let siga := signatureFinalize sa
  let sigb := signatureFinalize sb
  let delta_acc : Int := (sb.counts_accepted : Int) - (sa.counts_accepted : Int)
  let delta_margin := sb.accepted.mean_margin - sa.accepted.mean_margin
  let delta_domega := sb.accepted.mean_delta_omega - sa.accepted.mean_delta_omega
  let delta_snrc := sb.accepted.mean_snrc_pressure - sa.accepted.mean_snrc_pressure
  let vr : String × String :=
    if delta_acc ≤ -cfg.min_count_delta ∨ delta_margin ≤ -cfg.min_margin_delta ∨
        delta_domega < -cfg.eps then
      ("REGRESSION", "accepted_down_or_margin_down_or_delta_omega_down")
    else if delta_acc ≥ cfg.min_count_delta ∧ delta_margin ≥ cfg.min_margin_delta ∧
        delta_domega ≥ -cfg.eps then
      ("PROGRESS", "accepted_up_and_margin_up_and_delta_omega_not_down")
    else ("STALL", "no_significant_change")
  let sig_dist := sigDistance siga sigb
  let loop_like := decide (sig_dist ≤ cfg.loop_tol)
  { a_stats := sa
    b_stats := sb
    a_signature := siga
    b_signature := sigb
    delta_accepted := delta_acc
    delta_accepted_mean_margin := delta_margin
    delta_accepted_mean_delta_omega := delta_domega
    delta_accepted_mean_snrc_pressure := delta_snrc
    signature_distance := sig_dist
    loop_like := loop_like
    verdict_label := vr.1
    verdict_reason := vr.2
    loop_warning := loop_like }

/-- C7: comparing a certificate to itself under the default configuration
yields verdict STALL, signature distance `0`, and the loop flags set. -/
theorem cas_diff_self (c : DiffCert) :
    (CASDiff.compare {} c c).verdict_label = "STALL" ∧
    (CASDiff.compare {} c c).signature_distance = 0 ∧
    (CASDiff.compare {} c c).loop_like = true ∧
    (CASDiff.compare {} c c).loop_warning = true := by
  have hdist : sigDistance (signatureFinalize (casStats c))
      (signatureFinalize (casStats c)) = 0 := by
    simp [sigDistance, sub_self, abs_zero]
  simp only [CASDiff.compare]
  split_ifs with h1 h2
  · exfalso
    rcases h1 with h | h | h <;> rw [sub_self] at h
    · exact absurd h (by decide)
    · exact absurd h (by norm_num)
    · exact absurd h (by norm_num)
  · exfalso
    obtain ⟨h, -, -⟩ := h2
    rw [sub_self] at h
    exact absurd h (by decide)
  · refine ⟨rfl, hdist, ?_, ?_⟩ <;>
    · rw [hdist]
      norm_num

end Omnia
